import Mathlib

/-!
Shallow embedding of the translator-adapter layer of `book_maker/translator`
(files `claude_code_translator.py`, `deepseek_translator.py`), together with
theorems settling the specification claims about it.

Conventions of the embedding:
* Python exceptions become an explicit error type; fallible operations return
  `Except`.
* Python truthiness of optional strings (`if not key:`) is modelled by
  `truthyOptStr`: `None` and the empty string are falsy.
* The module-level constant `HAS_CLAUDE_CODE_SDK` (set by an import attempt)
  is a `Bool` parameter of the constructor.
* The plain Claude adapter and the OpenAI-compatible parent class are not part
  of the analysed sources; where a claim needs them they are modelled from the
  spec, as indicated by doc comments starting with `Modelled from the spec:`.
-/

/-- A Python exception as observed by a caller: a `RuntimeError` with a
message, or any other exception with a class name and a message. -/
inductive PyExc where
  | runtimeError (msg : String)
  | otherExc (name : String) (msg : String)
deriving DecidableEq, Repr

/-- Whether the exception is (a) `RuntimeError`, the class caught by the
`except RuntimeError` handler in `_sync_wrapper`. -/
def PyExc.isRuntimeError : PyExc → Bool
  | .runtimeError _ => true
  | .otherExc _ _ => false

/-- A coroutine object, represented by the outcome its body produces when it
is awaited for the first time (a value or a raised exception). -/
structure Coro (α : Type) where
  outcome : Except PyExc α

/-- The `RuntimeError` CPython's `asyncio.run` raises, before touching the
coroutine, when the calling thread already has a running event loop. -/
def runningLoopError : PyExc :=
  .runtimeError "asyncio.run() cannot be called from a running event loop"

/-- The `RuntimeError` CPython raises when a coroutine object is awaited a
second time. -/
def reuseError : PyExc := .runtimeError "cannot reuse already awaited coroutine"

/-- `asyncio.run(coro)` as called in a thread where `loopRunning` says
whether an event loop is already running: the fail-fast check raises
`runningLoopError` first, before the coroutine is touched; otherwise a fresh
coroutine is awaited to its outcome (and consumed), and an already-consumed
coroutine raises `reuseError` when re-awaited. -/
def asyncioRun (c : Coro α) (loopRunning consumed : Bool) : Except PyExc α :=
  if loopRunning then .error runningLoopError
  else if consumed then .error reuseError
  else c.outcome

/-- Embedding of `ClaudeCodeTranslator._sync_wrapper`.  `loopRunning` says
whether `asyncio.get_running_loop()` finds an event loop in the calling
thread.  If it does, the coroutine is run by `asyncio.run` on a worker thread
(which has no running loop, and the coroutine is fresh) and `future.result()`
re-raises its exception inside the `try` block, so a `RuntimeError` raised by
the coroutine is caught by the `except RuntimeError` handler, which calls
`asyncio.run` again — in the caller's thread, whose loop is still running,
on the now-consumed coroutine.  If no loop is running, `get_running_loop`
itself raises `RuntimeError` and the handler runs `asyncio.run(coro)` in the
caller's thread on the fresh coroutine. -/
def sync_wrapper (loopRunning : Bool) (c : Coro α) : Except PyExc α :=
  if loopRunning then
    match asyncioRun c false false with
    | .ok v => .ok v
    | .error e => if e.isRuntimeError then asyncioRun c true true else .error e
  else
    asyncioRun c false false

/-- C3 counterexample: a `RuntimeError` raised by the asynchronous operation,
when the bridge is invoked from inside a running event loop, does not
propagate with its original message; the handler's `asyncio.run` fail-fasts
in the still-running loop of the caller's thread, so the caller observes the
running-event-loop `RuntimeError` instead. -/
theorem sync_wrapper_runtime_error_replaced :
    sync_wrapper true (⟨Except.error (PyExc.runtimeError "boom")⟩ : Coro Nat)
      = Except.error runningLoopError
    ∧ runningLoopError ≠ PyExc.runtimeError "boom" := by
  constructor
  · rfl
  · decide

/-- C3 (amended): an error raised by the asynchronous operation propagates to
the caller unchanged whenever no event loop is running in the caller's
thread, and also in the running-loop context whenever the error is not a
`RuntimeError`; a `RuntimeError` in the running-loop context still surfaces
as an error, but as the running-event-loop `RuntimeError` raised by the
handler's `asyncio.run` fail-fast check, instead of the original one. -/
theorem sync_wrapper_error_propagation (α : Type) (e : PyExc) (name msg : String) :
    sync_wrapper false (⟨Except.error e⟩ : Coro α) = Except.error e
    ∧ sync_wrapper true (⟨Except.error (PyExc.otherExc name msg)⟩ : Coro α)
        = Except.error (PyExc.otherExc name msg)
    ∧ sync_wrapper true (⟨Except.error (PyExc.runtimeError msg)⟩ : Coro α)
        = Except.error runningLoopError := by
  refine ⟨rfl, rfl, rfl⟩

/-- C4: a successful asynchronous operation's value is returned by the bridge
in both invocation contexts: the two execution paths are result-equivalent. -/
theorem sync_wrapper_success (α : Type) (v : α) (loopRunning : Bool) :
    sync_wrapper loopRunning (⟨Except.ok v⟩ : Coro α) = Except.ok v := by
  cases loopRunning <;> rfl

/-! ## `ClaudeCodeTranslator` -/

/-- Construction-time errors raised by `ClaudeCodeTranslator.__init__`. -/
inductive InitError where
  | importError (msg : String)
  | valueError (msg : String)
deriving DecidableEq, Repr

/-- Python truthiness of an optional string argument: `None` and `""` are
falsy. -/
def truthyOptStr : Option String → Bool
  | none => false
  | some s => !(s == "")

/-- `x or default` on an optional string argument. -/
def orDefaultStr (x : Option String) (d : String) : String :=
  match x with
  | none => d
  | some s => if s == "" then d else s

/-- Modelled from the spec: the plain (non-agentic) Claude adapter that
`ClaudeCodeTranslator` falls back to.  Its implementation is outside the
analysed sources; it is opaque here, carrying its `translate` behaviour and,
when present (`hasattr`), its `translate_list` behaviour. -/
structure Fallback where
  translate : String → String
  translateListFn : Option (List String → List String)

/-- The state of a constructed `ClaudeCodeTranslator` instance (the fields the
claims are about; the SDK option-merging dictionary is not modelled, no claim
concerns it). -/
structure CCState where
  agentic : Bool
  fallback : Option Fallback
  language : String
  prompt_template : String
  prompt_sys_msg : String
  context_flag : Bool
  context_list : List String
  context_translated_list : List String
  context_paragraph_limit : Nat

/-- The `ImportError` message of `ClaudeCodeTranslator.__init__`. -/
def sdkMissingMsg : String :=
  "Claude Code SDK is not installed. Please install it with:\npip install bbook-maker[agentic] or pip install claude-code-sdk"

/-- The `ValueError` message of `ClaudeCodeTranslator.__init__`. -/
def apiKeyRequiredMsg : String :=
  "API key is required for regular Claude mode. Use --claude_key or set BBM_CLAUDE_API_KEY environment variable."

/-- The default prompt template of `ClaudeCodeTranslator`. -/
def defaultPromptTemplate : String :=
  "Translate the following text into {language}. Provide ONLY the translation without any additional text or explanation:\n\n{text}"

/-- The default system message of `ClaudeCodeTranslator`. -/
def defaultPromptSysMsg : String :=
  "You are a professional translator. Always provide only the translation without any additional commentary or explanations."

/-- Embedding of `ClaudeCodeTranslator.__init__`.  `hasSDK` is the
module-level `HAS_CLAUDE_CODE_SDK` flag; `claudeMk`, a parameter of the
embedding, stands for the constructor of the plain Claude adapter
(`Claude(key=..., language=..., ...)`), which lives outside the analysed
sources and is opaque here. -/
def mkClaudeCodeTranslator (hasSDK : Bool) (claudeMk : String → String → Fallback)
    (key : Option String) (language : String)
    (prompt_template prompt_sys_msg : Option String)
    (context_flag : Bool) (context_paragraph_limit : Nat)
    (agentic : Bool) : Except InitError CCState :=
  if agentic && !hasSDK then
    .error (.importError sdkMissingMsg)
  else
    let fb : Except InitError (Option Fallback) :=
      if !agentic || !hasSDK then
        if !(truthyOptStr key) then .error (.valueError apiKeyRequiredMsg)
        else .ok (some (claudeMk (key.getD "") language))
      else
        .ok none
    match fb with
    | .error e => .error e
    | .ok f =>
        .ok { agentic := agentic
              fallback := f
              language := language
              prompt_template := orDefaultStr prompt_template defaultPromptTemplate
              prompt_sys_msg := orDefaultStr prompt_sys_msg defaultPromptSysMsg
              context_flag := context_flag
              context_list := []
              context_translated_list := []
              context_paragraph_limit := context_paragraph_limit }

/-- Embedding of `ClaudeCodeTranslator.create_context_messages`: the
accumulator-style string build of the Python `for` loop over the zipped
context lists. -/
def CCState.create_context_messages (s : CCState) : String :=
  if !s.context_flag || s.context_list.isEmpty then ""
  else
    (s.context_list.zip s.context_translated_list).foldl
      (fun acc p => acc ++ "Original: " ++ p.1 ++ "\nTranslation: " ++ p.2 ++ "\n\n")
      "Previous context:\n"

/-- Embedding of `ClaudeCodeTranslator.save_context`: append the pair, then
pop the front of both lists once if the length exceeds the cap. -/
def CCState.save_context (s : CCState) (text t_text : String) : CCState :=
  if !s.context_flag then s
  else if (s.context_list ++ [text]).length > s.context_paragraph_limit then
    { s with context_list := (s.context_list ++ [text]).drop 1
             context_translated_list := (s.context_translated_list ++ [t_text]).drop 1 }
  else
    { s with context_list := s.context_list ++ [text]
             context_translated_list := s.context_translated_list ++ [t_text] }

/-- The full prompt built by `ClaudeCodeTranslator._agentic_translate`:
system message, context block, then the prompt template with `{language}` and
`{text}` substituted (Python `str.format`). -/
def CCState.full_prompt (s : CCState) (text : String) : String :=
  let context := s.create_context_messages
  let p1 := if s.prompt_sys_msg != "" then "System: " ++ s.prompt_sys_msg ++ "\n\n" else ""
  let p2 := if context != "" then p1 ++ context ++ "\n" else p1
  p2 ++ (s.prompt_template.replace "{language}" s.language).replace "{text}" text

/-- Python `str.strip()` with no argument: remove leading and trailing
whitespace (modelled for the ASCII whitespace characters of
`Char.isWhitespace`), written structurally on the character list so that it
evaluates by reduction. -/
def pyStrip (s : String) : String :=
  ⟨((s.data.dropWhile Char.isWhitespace).reverse.dropWhile Char.isWhitespace).reverse⟩

/-- Embedding of the SDK call of `ClaudeCodeTranslator._agentic_translate`:
`q`, a parameter of the embedding, stands for the external `query` stream
already concatenated to one string (the `async for` accumulation of the text
blocks); the result is stripped of surrounding whitespace.  The
environment-variable step of `_agentic_translate` is modelled separately by
`configure_sdk_env`. -/
def CCState.agentic_translate (q : String → String) (s : CCState) (text : String) : String :=
  pyStrip (q (s.full_prompt text))

/-- Embedding of `ClaudeCodeTranslator.translate`: with a fallback instance,
delegate to its `translate` (the fallback's internal state is opaque and the
`ClaudeCodeTranslator` state is unchanged); otherwise run the agentic
translation and save the pair into the context buffer when context is
enabled. -/
def CCState.translate (q : String → String) (s : CCState) (text : String) :
    String × CCState :=
  match s.fallback with
  | some fb => (fb.translate text, s)
  | none =>
      let t := s.agentic_translate q text
      if s.context_flag then (t, s.save_context text t) else (t, s)

/-- The per-item loop of `ClaudeCodeTranslator.translate_list`: each entry
whose stripped text is non-empty goes through `translate` with the state
threaded along; blank entries become `""` with no call.  The third component
is ghost instrumentation recording, in order, the entries passed to
`translate` (hence, in the agentic case, the backend calls made). -/
def CCState.translate_loop (q : String → String) (s : CCState) :
    List String → List String × CCState × List String
  | [] => ([], s, [])
  | t :: ts =>
      if pyStrip t != "" then
        ((s.translate q t).1 :: (CCState.translate_loop q (s.translate q t).2 ts).1,
          (CCState.translate_loop q (s.translate q t).2 ts).2.1,
          t :: (CCState.translate_loop q (s.translate q t).2 ts).2.2)
      else
        ("" :: (CCState.translate_loop q s ts).1,
          (CCState.translate_loop q s ts).2.1,
          (CCState.translate_loop q s ts).2.2)

/-- Embedding of `ClaudeCodeTranslator.translate_list`: delegate to the
fallback's `translate_list` when the fallback exists and has one
(`hasattr`); otherwise translate each item separately. -/
def CCState.translate_list (q : String → String) (s : CCState) (ts : List String) :
    List String × CCState × List String :=
  match s.fallback with
  | some fb =>
      match fb.translateListFn with
      | some f => (f ts, s, [])
      | none => s.translate_loop q ts
  | none => s.translate_loop q ts

/-! ## Context buffer (C5, C6) -/

/-- Folding a whole sequence of `save_context` calls over an instance, in
order. -/
def CCState.save_context_seq (s : CCState) (ps : List (String × String)) : CCState :=
  ps.foldl (fun st p => st.save_context p.1 p.2) s

/-- The spec-side rendering of the context blocks: one
"Original: ...\nTranslation: ...\n\n" block per pair, oldest first. -/
def renderBlocks : List (String × String) → String
  | [] => ""
  | p :: rest =>
      "Original: " ++ p.1 ++ "\nTranslation: " ++ p.2 ++ "\n\n" ++ renderBlocks rest

theorem foldl_renderBlocks (l : List (String × String)) (acc : String) :
    l.foldl (fun a p => a ++ "Original: " ++ p.1 ++ "\nTranslation: " ++ p.2 ++ "\n\n") acc
      = acc ++ renderBlocks l := by
  induction l generalizing acc with
  | nil => simp [renderBlocks]
  | cons p rest ih =>
      rw [List.foldl_cons, ih, renderBlocks]
      simp [String.append_assoc]

theorem save_context_false (s : CCState) (x y : String) (h : s.context_flag = false) :
    s.save_context x y = s := by
  simp [CCState.save_context, h]

theorem save_context_frame (s : CCState) (x y : String) :
    (s.save_context x y).context_flag = s.context_flag
    ∧ (s.save_context x y).context_paragraph_limit = s.context_paragraph_limit := by
  unfold CCState.save_context
  split
  · exact ⟨rfl, rfl⟩
  · split <;> exact ⟨rfl, rfl⟩

theorem save_context_seq_frame (s : CCState) (ps : List (String × String)) :
    (s.save_context_seq ps).context_flag = s.context_flag
    ∧ (s.save_context_seq ps).context_paragraph_limit = s.context_paragraph_limit := by
  induction ps generalizing s with
  | nil => exact ⟨rfl, rfl⟩
  | cons p rest ih =>
      have h := save_context_frame s p.1 p.2
      have h2 := ih (s.save_context p.1 p.2)
      simp only [CCState.save_context_seq, List.foldl_cons] at h2 ⊢
      exact ⟨h2.1.trans h.1, h2.2.trans h.2⟩

theorem save_context_inv_step (s : CCState) (x y : String)
    (h₁ : s.context_list.length = s.context_translated_list.length)
    (h₂ : s.context_list.length ≤ s.context_paragraph_limit) :
    (s.save_context x y).context_list.length
        = (s.save_context x y).context_translated_list.length
    ∧ (s.save_context x y).context_list.length
        ≤ (s.save_context x y).context_paragraph_limit := by
  unfold CCState.save_context
  split
  · exact ⟨h₁, h₂⟩
  · split
    · next hgt =>
        simp only [List.length_drop, List.length_append, List.length_singleton]
        omega
    · next hle =>
        simp only [List.length_append, List.length_singleton] at hle ⊢
        omega

theorem save_context_seq_inv (ps : List (String × String)) (s : CCState)
    (h₁ : s.context_list.length = s.context_translated_list.length)
    (h₂ : s.context_list.length ≤ s.context_paragraph_limit) :
    (s.save_context_seq ps).context_list.length
        = (s.save_context_seq ps).context_translated_list.length
    ∧ (s.save_context_seq ps).context_list.length
        ≤ (s.save_context_seq ps).context_paragraph_limit := by
  induction ps generalizing s with
  | nil => exact ⟨h₁, h₂⟩
  | cons p rest ih =>
      have h := save_context_inv_step s p.1 p.2 h₁ h₂
      simpa only [CCState.save_context_seq, List.foldl_cons]
        using ih (s.save_context p.1 p.2) h.1 h.2

theorem save_context_true_step (t : CCState) (x y : String)
    (ht : t.context_flag = true)
    (hlen : t.context_list.length = t.context_translated_list.length)
    (hb : t.context_list.length ≤ t.context_paragraph_limit) :
    (t.save_context x y).context_list
        = (t.context_list ++ [x]).drop
            ((t.context_list.length + 1) - t.context_paragraph_limit)
    ∧ (t.save_context x y).context_translated_list
        = (t.context_translated_list ++ [y]).drop
            ((t.context_list.length + 1) - t.context_paragraph_limit) := by
  unfold CCState.save_context
  rw [ht]
  simp only [Bool.not_true, Bool.false_eq_true, if_false]
  split
  · next hgt =>
      simp only [List.length_append, List.length_singleton] at hgt
      have h1 : t.context_list.length + 1 - t.context_paragraph_limit = 1 := by omega
      rw [h1]
      exact ⟨rfl, rfl⟩
  · next hle =>
      simp only [List.length_append, List.length_singleton] at hle
      have h0 : t.context_list.length + 1 - t.context_paragraph_limit = 0 := by omega
      rw [h0]
      exact ⟨by simp, by simp⟩

theorem drop_append_single {γ : Type} (l : List γ) (x : γ) (N : Nat) :
    (l.drop (l.length - N) ++ [x]).drop ((l.length - (l.length - N)) + 1 - N)
      = (l ++ [x]).drop (l.length + 1 - N) := by
  rcases Nat.lt_or_ge l.length N with h | h
  · have h1 : l.length - N = 0 := by omega
    rw [h1]
    simp
  · have h1 : l.length - (l.length - N) = N := by omega
    rw [h1]
    rcases Nat.eq_zero_or_pos N with hN | hN
    · subst hN
      simp only [Nat.sub_zero]
      rw [List.drop_length]
      have h4 : l.length + 1 = (l ++ [x]).length := by simp
      rw [h4, List.drop_length]
      simp
    · have h2 : N + 1 - N = 1 := by omega
      rw [h2, List.drop_append_eq_append_drop, List.drop_append_eq_append_drop,
        List.drop_drop, List.length_drop]
      have e1 : l.length - N + 1 = l.length + 1 - N := by omega
      have e2 : 1 - (l.length - (l.length - N)) = 0 := by omega
      have e3 : l.length + 1 - N - l.length = 0 := by omega
      rw [e1, e2, e3]

theorem save_context_seq_content (N : Nat) (ps : List (String × String)) (s : CCState)
    (hf : s.context_flag = true) (hl : s.context_list = [])
    (ht : s.context_translated_list = []) (hN : s.context_paragraph_limit = N) :
    (s.save_context_seq ps).context_list = (ps.map Prod.fst).drop (ps.length - N)
    ∧ (s.save_context_seq ps).context_translated_list
        = (ps.map Prod.snd).drop (ps.length - N) := by
  induction ps using List.reverseRecOn with
  | nil => simpa [CCState.save_context_seq] using ⟨hl, ht⟩
  | append_singleton ps p ih =>
      have hstep : s.save_context_seq (ps ++ [p])
          = (s.save_context_seq ps).save_context p.1 p.2 := by
        simp [CCState.save_context_seq, List.foldl_append]
      set t := s.save_context_seq ps with htdef
      have hfr := save_context_seq_frame s ps
      have htf : t.context_flag = true := by rw [← htdef] at hfr; rw [hfr.1, hf]
      have htN : t.context_paragraph_limit = N := by rw [← htdef] at hfr; rw [hfr.2, hN]
      have hinv := save_context_seq_inv ps s (by rw [hl, ht]) (by rw [hl]; exact Nat.zero_le _)
      rw [← htdef] at hinv
      have hlen1 : t.context_list.length = ps.length - (ps.length - N) := by
        rw [ih.1]; simp
      have hst := save_context_true_step t p.1 p.2 htf hinv.1 (htN ▸ hinv.2)
      rw [hstep, hst.1, hst.2, htN, hlen1, ih.1, ih.2]
      constructor
      · have := drop_append_single (ps.map Prod.fst) p.1 N
        simpa using this
      · have hlenfst : ps.length = (ps.map Prod.fst).length := by simp
        have hgoal := drop_append_single (ps.map Prod.snd) p.2 N
        simp only [List.length_map] at hgoal ⊢
        simpa using hgoal

/-- C5: after any sequence of `save_context` calls the two context lists have
equal length, bounded by the cap; a call with context disabled changes
nothing; and starting from a fresh instance with cap `N` and context enabled,
after `N + k` calls (`k ≥ 1`) the buffer holds exactly the last `N` pairs in
chronological order. -/
theorem save_context_buffer_claim :
    (∀ (s : CCState) (ps : List (String × String)),
        s.context_list.length = s.context_translated_list.length →
        s.context_list.length ≤ s.context_paragraph_limit →
        (s.save_context_seq ps).context_list.length
            = (s.save_context_seq ps).context_translated_list.length
          ∧ (s.save_context_seq ps).context_list.length
              ≤ (s.save_context_seq ps).context_paragraph_limit)
    ∧ (∀ (s : CCState) (x y : String), s.context_flag = false → s.save_context x y = s)
    ∧ (∀ (N : Nat) (ps : List (String × String)) (s : CCState),
        s.context_flag = true → s.context_list = [] →
        s.context_translated_list = [] → s.context_paragraph_limit = N →
        N + 1 ≤ ps.length →
        (s.save_context_seq ps).context_list = (ps.map Prod.fst).drop (ps.length - N)
          ∧ (s.save_context_seq ps).context_translated_list
              = (ps.map Prod.snd).drop (ps.length - N)) := by
  refine ⟨fun s ps h₁ h₂ => save_context_seq_inv ps s h₁ h₂,
    fun s x y h => save_context_false s x y h,
    fun N ps s hf hl ht hN _hk => save_context_seq_content N ps s hf hl ht hN⟩

/-- A fresh context-enabled instance with cap 2, used to instantiate the
context-buffer theorems. -/
def freshCtxState : CCState :=
  { agentic := true
    fallback := none
    language := "en"
    prompt_template := "{text}"
    prompt_sys_msg := ""
    context_flag := true
    context_list := []
    context_translated_list := []
    context_paragraph_limit := 2 }

/-- Witness for C5: with cap 2, after 3 calls the buffer holds exactly the
last 2 pairs. -/
theorem save_context_buffer_claim_witness :
    (freshCtxState.save_context_seq [("a", "1"), ("b", "2"), ("c", "3")]).context_list
      = ["b", "c"] := by
  have h := (save_context_buffer_claim.2.2 2 [("a", "1"), ("b", "2"), ("c", "3")]
    freshCtxState rfl rfl rfl rfl (by decide)).1
  rw [h]
  decide

/-- C6: `create_context_messages` returns the empty string when context is
disabled or the buffer is empty, and otherwise a header line followed by one
"Original: ...\nTranslation: ..." block per retained pair, in chronological
order with the oldest pair first. -/
theorem create_context_messages_claim (s : CCState) :
    (s.context_flag = false ∨ s.context_list = [] → s.create_context_messages = "")
    ∧ (s.context_flag = true → s.context_list ≠ [] →
        s.create_context_messages
          = "Previous context:\n"
            ++ renderBlocks (s.context_list.zip s.context_translated_list)) := by
  constructor
  · rintro (h | h) <;> simp [CCState.create_context_messages, h]
  · intro hf hne
    have hni : s.context_list.isEmpty = false := by
      cases hcl : s.context_list
      · exact absurd hcl hne
      · rfl
    rw [CCState.create_context_messages, hf]
    simp only [Bool.not_true, hni, Bool.or_self, Bool.false_eq_true, if_false]
    exact foldl_renderBlocks _ _

/-- Witness for C6: a one-pair enabled buffer renders the header plus its
block. -/
theorem create_context_messages_claim_witness :
    CCState.create_context_messages
        { freshCtxState with context_list := ["a"], context_translated_list := ["b"] }
      = "Previous context:\nOriginal: a\nTranslation: b\n\n" := by
  have h := (create_context_messages_claim
    { freshCtxState with context_list := ["a"], context_translated_list := ["b"] }).2
    rfl (by decide)
  rw [h]
  decide

/-! ## Construction and fallback delegation (C1, C2) -/

/-- C2: requesting agentic mode while the SDK is unavailable makes the
construction raise the installation-instruction `ImportError`, for every
combination of the other constructor arguments; no instance (in particular no
silently downgraded one) is ever produced. -/
theorem agentic_without_sdk_import_error
    (claudeMk : String → String → Fallback) (key : Option String)
    (language : String) (pt psm : Option String) (cf : Bool) (cpl : Nat) :
    mkClaudeCodeTranslator false claudeMk key language pt psm cf cpl true
      = Except.error (InitError.importError sdkMissingMsg) := rfl

/-- A concrete stand-in for the opaque plain-Claude constructor, used to
instantiate theorems at concrete inputs. -/
def constFallbackMk : String → String → Fallback :=
  fun key _ => { translate := fun t => key ++ ":" ++ t, translateListFn := none }

/-- C1 counterexample: when agentic mode is requested and the SDK is
unavailable, construction raises the `ImportError` — with a key supplied no
proxying instance exists, and with no key the error is not the credential
`ValueError` the claim demands; moreover, with agentic not requested, a
supplied empty-string key is treated as missing and raises the credential
error instead of delegating. -/
theorem claude_code_proxy_counterexample :
    mkClaudeCodeTranslator false constFallbackMk (some "k") "en" none none false 5 true
      = Except.error (InitError.importError sdkMissingMsg)
    ∧ mkClaudeCodeTranslator false constFallbackMk none "en" none none false 5 true
      = Except.error (InitError.importError sdkMissingMsg)
    ∧ InitError.importError sdkMissingMsg ≠ InitError.valueError apiKeyRequiredMsg
    ∧ mkClaudeCodeTranslator true constFallbackMk (some "") "en" none none false 5 false
      = Except.error (InitError.valueError apiKeyRequiredMsg) := by
  refine ⟨rfl, rfl, by simp, rfl⟩

/-- C1 (amended): whenever agentic mode is not requested (for either value of
SDK availability), the instance is a transparent proxy to the fallback Claude
adapter: construction fails with the credential `ValueError` if the key is
missing or empty, and with a non-empty key construction succeeds, installs
the fallback built from that key and language, and every `translate` call
returns exactly the fallback's `translate` result (when agentic mode is
requested without the SDK, construction instead fails with the `ImportError`
of C2). -/
theorem claude_code_transparent_proxy
    (hasSDK : Bool) (claudeMk : String → String → Fallback)
    (key : Option String) (language : String) (pt psm : Option String)
    (cf : Bool) (cpl : Nat) :
    (truthyOptStr key = false →
      mkClaudeCodeTranslator hasSDK claudeMk key language pt psm cf cpl false
        = Except.error (InitError.valueError apiKeyRequiredMsg))
    ∧ (∀ k, key = some k → k ≠ "" →
        ∃ s, mkClaudeCodeTranslator hasSDK claudeMk key language pt psm cf cpl false
            = Except.ok s
          ∧ s.fallback = some (claudeMk k language)
          ∧ ∀ (q : String → String) (text : String),
              s.translate q text = ((claudeMk k language).translate text, s)) := by
  constructor
  · intro hk
    simp [mkClaudeCodeTranslator, hk]
  · rintro k rfl hk
    have ht : truthyOptStr (some k) = true := by
      simp [truthyOptStr, hk]
    have hmk : mkClaudeCodeTranslator hasSDK claudeMk (some k) language pt psm cf cpl false
        = Except.ok
          { agentic := false
            fallback := some (claudeMk k language)
            language := language
            prompt_template := orDefaultStr pt defaultPromptTemplate
            prompt_sys_msg := orDefaultStr psm defaultPromptSysMsg
            context_flag := cf
            context_list := []
            context_translated_list := []
            context_paragraph_limit := cpl } := by
      simp [mkClaudeCodeTranslator, ht]
    exact ⟨_, hmk, rfl, fun q text => rfl⟩

/-- Witness for C1: without a key and agentic off, construction yields the
credential error; with a non-empty key, the constructed instance delegates a
concrete `translate` call to the fallback. -/
theorem claude_code_transparent_proxy_witness :
    mkClaudeCodeTranslator true constFallbackMk none "en" none none false 5 false
      = Except.error (InitError.valueError apiKeyRequiredMsg)
    ∧ ∃ s, mkClaudeCodeTranslator true constFallbackMk (some "k") "en" none none false 5 false
        = Except.ok s
      ∧ s.fallback = some (constFallbackMk "k" "en")
      ∧ ∀ (q : String → String) (text : String),
          s.translate q text = ((constFallbackMk "k" "en").translate text, s) :=
  ⟨(claude_code_transparent_proxy true constFallbackMk none "en" none none false 5).1 rfl,
   (claude_code_transparent_proxy true constFallbackMk (some "k") "en" none none false 5).2
     "k" rfl (by decide)⟩


/-! ## `translate_list` on the agentic adapter (C7) -/

theorem translate_loop_nil (q : String → String) (s : CCState) :
    CCState.translate_loop q s [] = ([], s, []) := rfl

theorem translate_loop_cons (q : String → String) (s : CCState) (t : String)
    (ts : List String) :
    CCState.translate_loop q s (t :: ts)
      = if pyStrip t != "" then
          ((s.translate q t).1 :: (CCState.translate_loop q (s.translate q t).2 ts).1,
            (CCState.translate_loop q (s.translate q t).2 ts).2.1,
            t :: (CCState.translate_loop q (s.translate q t).2 ts).2.2)
        else
          ("" :: (CCState.translate_loop q s ts).1,
            (CCState.translate_loop q s ts).2.1,
            (CCState.translate_loop q s ts).2.2) := rfl

theorem translate_loop_length (q : String → String) (ts : List String) :
    ∀ s : CCState, (CCState.translate_loop q s ts).1.length = ts.length := by
  induction ts with
  | nil => intro s; rfl
  | cons t rest ih =>
      intro s
      rw [translate_loop_cons]
      by_cases hc : (pyStrip t != "") = true
      · rw [if_pos hc]; simp [ih]
      · rw [if_neg hc]; simp [ih]

theorem translate_loop_log (q : String → String) (ts : List String) :
    ∀ s : CCState,
      (CCState.translate_loop q s ts).2.2 = ts.filter (fun t => pyStrip t != "") := by
  induction ts with
  | nil => intro s; rfl
  | cons t rest ih =>
      intro s
      rw [translate_loop_cons, List.filter_cons]
      by_cases hc : (pyStrip t != "") = true
      · simp only [hc, if_true]; simp [ih]
      · simp only [hc, if_false]; simp [ih]

theorem translate_loop_blank (q : String → String) (ts : List String) :
    ∀ (s : CCState) (i : Nat) (t : String), ts[i]? = some t → pyStrip t = "" →
      (CCState.translate_loop q s ts).1[i]? = some "" := by
  induction ts with
  | nil => intro s i t h; simp at h
  | cons t₀ rest ih =>
      intro s i t hget htrim
      cases i with
      | zero =>
          have hteq : t₀ = t := by simpa using hget
          have hc : ¬(pyStrip t₀ != "") = true := by simp [hteq, htrim]
          rw [translate_loop_cons, if_neg hc]
          simp
      | succ j =>
          simp only [List.getElem?_cons_succ] at hget
          rw [translate_loop_cons]
          by_cases hc : (pyStrip t₀ != "") = true
          · rw [if_pos hc]
            simpa using ih _ j t hget htrim
          · rw [if_neg hc]
            simpa using ih _ j t hget htrim

theorem translate_loop_nonblank (q : String → String) (ts : List String) :
    ∀ (s : CCState) (i : Nat) (t : String), ts[i]? = some t → pyStrip t ≠ "" →
      (CCState.translate_loop q s ts).1[i]?
        = some (((CCState.translate_loop q s (ts.take i)).2.1).translate q t).1 := by
  induction ts with
  | nil => intro s i t h; simp at h
  | cons t₀ rest ih =>
      intro s i t hget htrim
      cases i with
      | zero =>
          have hteq : t₀ = t := by simpa using hget
          subst hteq
          have hc : (pyStrip t₀ != "") = true := by simpa using htrim
          rw [translate_loop_cons, if_pos hc]
          simp [translate_loop_nil]
      | succ j =>
          simp only [List.getElem?_cons_succ] at hget
          rw [List.take_succ_cons, translate_loop_cons, translate_loop_cons]
          by_cases hc : (pyStrip t₀ != "") = true
          · rw [if_pos hc, if_pos hc]
            simpa using ih _ j t hget htrim
          · rw [if_neg hc, if_neg hc]
            simpa using ih _ j t hget htrim

/-- C7: on the agentic adapter (no fallback), `translate_list` returns a list
of the same length and order as the input; `[]` maps to `[]`; the entries
passed on to `translate` (hence to the backend) are exactly the non-blank
ones, in order; every blank (empty or whitespace-only) entry maps to the
empty string; and every non-blank entry maps to `translate` of that entry in
the state threaded through the preceding entries. -/
theorem translate_list_claim (q : String → String) (s : CCState) (ts : List String)
    (hfb : s.fallback = none) :
    (s.translate_list q ts).1.length = ts.length
    ∧ s.translate_list q [] = ([], s, [])
    ∧ (s.translate_list q ts).2.2 = ts.filter (fun t => pyStrip t != "")
    ∧ (∀ (i : Nat) (t : String), ts[i]? = some t → pyStrip t = "" →
        (s.translate_list q ts).1[i]? = some "")
    ∧ (∀ (i : Nat) (t : String), ts[i]? = some t → pyStrip t ≠ "" →
        (s.translate_list q ts).1[i]?
          = some (((s.translate_list q (ts.take i)).2.1).translate q t).1) := by
  have hred : ∀ us, s.translate_list q us = CCState.translate_loop q s us := by
    intro us
    simp [CCState.translate_list, hfb]
  simp only [hred]
  exact ⟨translate_loop_length q ts s, rfl, translate_loop_log q ts s,
    fun i t h1 h2 => translate_loop_blank q ts s i t h1 h2,
    fun i t h1 h2 => translate_loop_nonblank q ts s i t h1 h2⟩

/-- Witness for C7: on a concrete three-entry list whose middle entry is
whitespace-only, the middle output is the empty string. -/
theorem translate_list_claim_witness :
    (freshCtxState.translate_list (fun p => p) ["a", " ", "b"]).1[1]? = some "" :=
  (translate_list_claim (fun p => p) freshCtxState ["a", " ", "b"] rfl).2.2.2.1
    1 " " rfl (by decide)

/-! ## Environment configuration in `_agentic_translate` (C8) -/

/-- A process environment: a map from variable names to values; `none` means
the variable is absent. -/
abbrev Env := String → Option String

/-- `os.environ[k] = v`. -/
def setEnvVar (env : Env) (k v : String) : Env :=
  fun q => if q = k then some v else env q

/-- The default service base URL written by `_agentic_translate`. -/
def anthropicBaseUrlDefault : String := "https://open.bigmodel.cn/api/anthropic"

/-- The default model identifier written by `_agentic_translate`. -/
def anthropicModelDefault : String := "glm-4.5"

/-- First environment statement of `_agentic_translate`:
`if not os.getenv('ANTHROPIC_BASE_URL'): os.environ['ANTHROPIC_BASE_URL'] = ...`.
`os.getenv` is falsy when the variable is absent or set to the empty
string. -/
def configureBase (env : Env) : Env :=
  if truthyOptStr (env "ANTHROPIC_BASE_URL") then env
  else setEnvVar env "ANTHROPIC_BASE_URL" anthropicBaseUrlDefault

/-- Second environment statement of `_agentic_translate`, for
`ANTHROPIC_MODEL`. -/
def configureModel (env : Env) : Env :=
  if truthyOptStr (env "ANTHROPIC_MODEL") then env
  else setEnvVar env "ANTHROPIC_MODEL" anthropicModelDefault

/-- The environment-configuration step of `_agentic_translate`: the two
statements in program order. -/
def configure_sdk_env (env : Env) : Env := configureModel (configureBase env)

theorem configureBase_other (env : Env) (k : String) (hk : k ≠ "ANTHROPIC_BASE_URL") :
    configureBase env k = env k := by
  unfold configureBase
  split
  · rfl
  · simp [setEnvVar, hk]

theorem configureModel_other (env : Env) (k : String) (hk : k ≠ "ANTHROPIC_MODEL") :
    configureModel env k = env k := by
  unfold configureModel
  split
  · rfl
  · simp [setEnvVar, hk]

/-- C8 counterexample: a caller-set environment variable is not always left
alone — when `ANTHROPIC_BASE_URL` is set to the empty string (a set, but
falsy, value), the agentic environment-configuration step overwrites it with
the default. -/
theorem configure_sdk_env_counterexample :
    (fun k => if k = "ANTHROPIC_BASE_URL" then some "" else none : Env)
        "ANTHROPIC_BASE_URL" = some ""
    ∧ configure_sdk_env (fun k => if k = "ANTHROPIC_BASE_URL" then some "" else none)
        "ANTHROPIC_BASE_URL" = some anthropicBaseUrlDefault
    ∧ some anthropicBaseUrlDefault ≠ (some "" : Option String) := by
  refine ⟨rfl, by decide, by decide⟩

/-- C8 (amended): during the agentic environment-configuration step, each of
the two SDK variables receives its default exactly when it is absent or set
to the empty string (the Python truthiness of `os.getenv`); a variable
already set to a non-empty value is left unchanged, and every other
environment variable is untouched. -/
theorem configure_sdk_env_claim (env : Env) :
    (truthyOptStr (env "ANTHROPIC_BASE_URL") = true →
      configure_sdk_env env "ANTHROPIC_BASE_URL" = env "ANTHROPIC_BASE_URL")
    ∧ (truthyOptStr (env "ANTHROPIC_BASE_URL") = false →
      configure_sdk_env env "ANTHROPIC_BASE_URL" = some anthropicBaseUrlDefault)
    ∧ (truthyOptStr (env "ANTHROPIC_MODEL") = true →
      configure_sdk_env env "ANTHROPIC_MODEL" = env "ANTHROPIC_MODEL")
    ∧ (truthyOptStr (env "ANTHROPIC_MODEL") = false →
      configure_sdk_env env "ANTHROPIC_MODEL" = some anthropicModelDefault)
    ∧ (∀ k, k ≠ "ANTHROPIC_BASE_URL" → k ≠ "ANTHROPIC_MODEL" →
        configure_sdk_env env k = env k) := by
  have hbm : configureBase env "ANTHROPIC_MODEL" = env "ANTHROPIC_MODEL" :=
    configureBase_other env _ (by decide)
  refine ⟨?_, ?_, ?_, ?_, ?_⟩
  · intro hb
    unfold configure_sdk_env
    rw [configureModel_other _ _ (by decide)]
    unfold configureBase
    rw [hb]
    simp
  · intro hb
    unfold configure_sdk_env
    rw [configureModel_other _ _ (by decide)]
    unfold configureBase
    rw [hb]
    simp [setEnvVar]
  · intro hm
    unfold configure_sdk_env configureModel
    rw [hbm, hm]
    simp [hbm]
  · intro hm
    unfold configure_sdk_env configureModel
    rw [hbm, hm]
    simp [setEnvVar]
  · intro k h1 h2
    unfold configure_sdk_env
    rw [configureModel_other _ _ h2, configureBase_other _ _ h1]

/-- Witness for C8: with the base URL set to a non-empty value and the model
unset, the configuration step preserves the base URL and fills in the model
default. -/
theorem configure_sdk_env_claim_witness :
    configure_sdk_env
        (fun k => if k = "ANTHROPIC_BASE_URL" then some "https://example.com" else none)
        "ANTHROPIC_BASE_URL" = some "https://example.com"
    ∧ configure_sdk_env
        (fun k => if k = "ANTHROPIC_BASE_URL" then some "https://example.com" else none)
        "ANTHROPIC_MODEL" = some anthropicModelDefault :=
  ⟨((configure_sdk_env_claim
      (fun k => if k = "ANTHROPIC_BASE_URL" then some "https://example.com" else none)).1
      (by decide)).trans (by decide),
   (configure_sdk_env_claim
      (fun k => if k = "ANTHROPIC_BASE_URL" then some "https://example.com" else none)).2.2.2.1
      (by decide)⟩

/-! ## `DeepSeekTranslator` (C9, C10) -/

/-- Modelled from the spec: the configuration stored by the OpenAI-compatible
parent adapter (`ChatGPTAPI`), whose implementation is outside the analysed
sources — the base URL it will direct requests to, and the cyclable model
list (round-robin cycling is modelled by its underlying list). -/
structure ChatGPTState where
  key : String
  language : String
  api_base : String
  model_list : List String
deriving DecidableEq, Repr

/-- Modelled from the spec: the OpenAI-compatible parent constructor stores
the credential, target language and supplied base URL; `parentModels` stands
for whatever default model cycle the parent installs (unknown here, and
immediately overwritten by the DeepSeek subclass). -/
def chatgptapi_init (key language api_base : String) (parentModels : List String) :
    ChatGPTState :=
  { key := key, language := language, api_base := api_base, model_list := parentModels }

/-- Modelled from the spec: the parent's `set_model_list` installs the given
list as the model cycle. -/
def ChatGPTState.parent_set_model_list (s : ChatGPTState) (ml : List String) :
    ChatGPTState :=
  { s with model_list := ml }

/-- `DeepSeekTranslator.DEFAULT_API_BASE`. -/
def deepseekDefaultApiBase : String := "https://api.deepseek.com"

/-- `DeepSeekTranslator.DEFAULT_MODEL_LIST`. -/
def deepseekDefaultModelList : List String := ["deepseek-chat"]

/-- Embedding of `DeepSeekTranslator.__init__`: `api_base or DEFAULT_API_BASE`
is passed to the parent constructor, then the model cycle is set to the
DeepSeek default. -/
def deepseek_init (key language : String) (api_base : Option String)
    (parentModels : List String) : ChatGPTState :=
  { chatgptapi_init key language (orDefaultStr api_base deepseekDefaultApiBase)
      parentModels with
    model_list := deepseekDefaultModelList }

/-- Embedding of `DeepSeekTranslator.set_model_list`: a falsy (empty) list is
replaced by the DeepSeek default before delegating to the parent. -/
def deepseek_set_model_list (s : ChatGPTState) (ml : List String) : ChatGPTState :=
  s.parent_set_model_list (if ml.isEmpty then deepseekDefaultModelList else ml)

/-- C9 counterexample: an explicitly supplied empty-string `api_base` is not
used unchanged — Python `or`-falsiness replaces it with the default
endpoint. -/
theorem deepseek_init_counterexample :
    (deepseek_init "k" "en" (some "") ["m"]).api_base = "https://api.deepseek.com"
    ∧ (deepseek_init "k" "en" (some "") ["m"]).api_base ≠ "" := by
  refine ⟨rfl, by decide⟩

/-- C9 (amended): with no `api_base` supplied the effective base URL passed
to the parent is the documented default endpoint, and a supplied non-empty
`api_base` is used unchanged (an empty string is treated as unsupplied); the
model cycle after construction contains exactly `deepseek-chat`; and a
non-empty custom list given to `set_model_list` replaces the cycle. -/
theorem deepseek_config_claim (key language : String) (parentModels : List String) :
    (deepseek_init key language none parentModels).api_base = deepseekDefaultApiBase
    ∧ (∀ b : String, b ≠ "" →
        (deepseek_init key language (some b) parentModels).api_base = b)
    ∧ (deepseek_init key language none parentModels).model_list = ["deepseek-chat"]
    ∧ (∀ (s : ChatGPTState) (ml : List String), ml ≠ [] →
        (deepseek_set_model_list s ml).model_list = ml) := by
  refine ⟨rfl, ?_, rfl, ?_⟩
  · intro b hb
    simp [deepseek_init, chatgptapi_init, orDefaultStr, hb]
  · intro s ml hml
    have h : ml.isEmpty = false := by
      cases ml
      · exact absurd rfl hml
      · rfl
    simp [deepseek_set_model_list, ChatGPTState.parent_set_model_list, h]

/-- Witness for C9: a concrete non-empty base URL is kept, and a concrete
non-empty model list replaces the cycle. -/
theorem deepseek_config_claim_witness :
    (deepseek_init "k" "en" (some "https://example.com") ["m"]).api_base
      = "https://example.com"
    ∧ (deepseek_set_model_list (deepseek_init "k" "en" none ["m"])
        ["deepseek-reasoner"]).model_list = ["deepseek-reasoner"] :=
  ⟨(deepseek_config_claim "k" "en" ["m"]).2.1 "https://example.com" (by decide),
   (deepseek_config_claim "k" "en" ["m"]).2.2.2 (deepseek_init "k" "en" none ["m"])
     ["deepseek-reasoner"] (by decide)⟩

/-- C10: calling `set_model_list` with an empty (falsy) model list does not
install an empty cycle; it resets the list to the default `["deepseek-chat"]`
and delegates that to the parent's `set_model_list`. -/
theorem deepseek_set_model_list_empty (s : ChatGPTState) :
    deepseek_set_model_list s [] = s.parent_set_model_list deepseekDefaultModelList
    ∧ (deepseek_set_model_list s []).model_list = ["deepseek-chat"] := by
  exact ⟨rfl, rfl⟩
